import Mathlib

/-
Verification development for the cap-x-platform repository.

The repository ships a React dashboard (frontend/src), deployment scripts and
Terraform; the README documents an auto-healing engine (auto-healing engine,
`auto_remediation.py`) whose source file is not part of the checked-in tree.
The engine's data model and operations below are therefore modelled from the
design document; the dashboard computations are translated directly from the
JSX sources.
-/

set_option autoImplicit false

namespace CapX

/-! ## Detector -/

/-- Modelled from the spec: the enumeration of abnormal conditions the
Detector can classify (`conditionKind` in the data model). The auto-healing
engine source (`auto_remediation.py`) is absent from the tree. -/
inductive ConditionKind
  | crashLoop
  | serviceUnreachable
  | highMemory
  | highCpu
  | replicaShortfall
deriving DecidableEq, Repr

/-- Modelled from the spec: a point-in-time observation for one workload,
as produced by the Metric Snapshot Source each Scheduler tick. -/
structure MetricSnapshot where
  workloadId : Nat
  observedAt : Nat
  readyReplicas : Nat
  desiredReplicas : Nat
  restartCount : Nat
  cpuPercent : Nat
  memoryPercent : Nat
  serviceReachable : Bool
deriving DecidableEq, Repr

/-- Modelled from the spec: `classify(snapshot) -> ConditionKind | none`,
evaluating the rule table in fixed precedence order (restart count, then
reachability, then memory, then cpu, then replica shortfall); returns `none`
when no threshold is crossed. Pure function of the snapshot. -/
def classify (s : MetricSnapshot) : Option ConditionKind :=
  if s.restartCount > 3 then some .crashLoop
  else if !s.serviceReachable then some .serviceUnreachable
  else if s.memoryPercent > 90 then some .highMemory
  else if s.cpuPercent > 90 then some .highCpu
  else if s.readyReplicas < s.desiredReplicas then some .replicaShortfall
  else none

/-- Modelled from the spec: the individual detection thresholds, one per
condition kind, expressed as a single table from kind to predicate. -/
def crossesThreshold (s : MetricSnapshot) : ConditionKind → Bool
  | .crashLoop => s.restartCount > 3
  | .serviceUnreachable => !s.serviceReachable
  | .highMemory => s.memoryPercent > 90
  | .highCpu => s.cpuPercent > 90
  | .replicaShortfall => s.readyReplicas < s.desiredReplicas

/-- Modelled from the spec: the fixed precedence order of conditions. -/
def precedenceOrder : List ConditionKind :=
  [.crashLoop, .serviceUnreachable, .highMemory, .highCpu, .replicaShortfall]

/-- The list of conditions whose thresholds a snapshot crosses, listed in
precedence order. -/
def crossedList (s : MetricSnapshot) : List ConditionKind :=
  precedenceOrder.filter (crossesThreshold s)

/-- Numeric precedence rank of a condition (lower rank binds tighter). -/
def precedenceRank : ConditionKind → Nat
  | .crashLoop => 0
  | .serviceUnreachable => 1
  | .highMemory => 2
  | .highCpu => 3
  | .replicaShortfall => 4

theorem classify_eq_head (s : MetricSnapshot) :
    classify s = (crossedList s).head? := by
  simp only [classify, crossedList, precedenceOrder, crossesThreshold,
    List.filter_cons, List.filter_nil, decide_eq_true_eq]
  split_ifs <;> simp_all

theorem classify_crosses {s : MetricSnapshot} {k : ConditionKind}
    (h : classify s = some k) : crossesThreshold s k = true := by
  revert h
  simp only [classify]
  split_ifs <;> intro h <;> simp only [Option.some.injEq] at h <;>
    first
    | exact absurd h (by simp)
    | (subst h; simp_all [crossesThreshold])

theorem classify_minimal {s : MetricSnapshot} {k k' : ConditionKind}
    (h : classify s = some k) (h' : crossesThreshold s k' = true) :
    precedenceRank k ≤ precedenceRank k' := by
  revert h
  simp only [classify]
  split_ifs <;> intro h <;> simp only [Option.some.injEq] at h <;>
    first
    | exact absurd h (by simp)
    | (subst h; cases k' <;> simp_all [crossesThreshold, precedenceRank] <;> omega)

/-- C2: a snapshot crossing more than one detection threshold is classified
as the single highest-precedence crossed condition, per the fixed order
restartCount, serviceReachable, memoryPercent, cpuPercent, replica shortfall. -/
theorem detector_multi_threshold_highest_precedence (s : MetricSnapshot)
    (h : 2 ≤ (crossedList s).length) :
    ∃ k, classify s = some k ∧ crossesThreshold s k = true ∧
      ∀ k', crossesThreshold s k' = true → precedenceRank k ≤ precedenceRank k' := by
  have hh := classify_eq_head s
  cases hcl : crossedList s with
  | nil => rw [hcl] at h; simp at h
  | cons a t =>
    rw [hcl] at hh
    refine ⟨a, hh, classify_crosses hh, fun k' hk' => classify_minimal hh hk'⟩

/-- Snapshot crossing both the CrashLoop and HighMemory thresholds
(restartCount = 5, memoryPercent = 95), the example from the spec. -/
def snapMulti : MetricSnapshot :=
  ⟨1, 0, 1, 1, 5, 0, 95, true⟩

theorem detector_multi_threshold_highest_precedence_witness :
    2 ≤ (crossedList snapMulti).length ∧
    (∃ k, classify snapMulti = some k ∧ crossesThreshold snapMulti k = true ∧
      ∀ k', crossesThreshold snapMulti k' = true →
        precedenceRank k ≤ precedenceRank k') ∧
    classify snapMulti = some ConditionKind.crashLoop :=
  ⟨by decide, detector_multi_threshold_highest_precedence snapMulti (by decide),
   by decide⟩

/-- C3: a snapshot crossing exactly one detection threshold is classified as
exactly that condition, and a snapshot crossing none is classified as `none`;
`classify` is a pure function of the snapshot, so determinism is definitional. -/
theorem detector_single_threshold_exact (s : MetricSnapshot) :
    (∀ k, crossedList s = [k] → classify s = some k) ∧
    (crossedList s = [] → classify s = none) := by
  refine ⟨fun k hk => ?_, fun hk => ?_⟩
  · rw [classify_eq_head, hk]; rfl
  · rw [classify_eq_head, hk]; rfl

/-- Snapshot crossing only the ReplicaShortfall threshold. -/
def snapSingle : MetricSnapshot :=
  ⟨2, 0, 1, 2, 0, 0, 0, true⟩

/-- Snapshot crossing no threshold. -/
def snapHealthy : MetricSnapshot :=
  ⟨3, 0, 2, 2, 0, 0, 0, true⟩

theorem detector_single_threshold_exact_witness :
    classify snapSingle = some ConditionKind.replicaShortfall ∧
    classify snapHealthy = none :=
  ⟨(detector_single_threshold_exact snapSingle).1 ConditionKind.replicaShortfall
     (by decide),
   (detector_single_threshold_exact snapHealthy).2 (by decide)⟩

/-! ## Incident lifecycle -/

/-- Modelled from the spec: the incident state machine of the Incident
Lifecycle Manager, with terminal states Resolved and Escalated. The engine
source is absent from the tree. -/
inductive IncidentState
  | opened
  | diagnosing
  | remediating
  | verifying
  | resolved
  | escalated
deriving DecidableEq, Repr

/-- A state is terminal when the incident is closed (Resolved or Escalated). -/
def IncidentState.isTerminal : IncidentState → Bool
  | .resolved => true
  | .escalated => true
  | _ => false

/-- Modelled from the spec: outcome of one Actuator call. -/
inductive Outcome
  | success
  | failure
  | timeout
deriving DecidableEq, Repr

/-- Modelled from the spec: kinds of remediation action; `freshRollout` is
the §4.3 fallback for a replica shortfall whose restart does not converge. -/
inductive ActionKind
  | restartPod
  | scaleUp
  | rollback
  | refreshEndpoints
  | freshRollout
deriving DecidableEq, Repr

/-- Modelled from the spec: the timestamped events recorded on an incident's
timeline; a manual force-close is recorded as its own event constructor,
distinct from automatic resolution. -/
inductive TimelineEvent
  | detected (k : ConditionKind) (t : Nat)
  | remediationAttempted (a : ActionKind) (t : Nat)
  | remediationResult (o : Outcome) (t : Nat)
  | escalatedEv (t : Nat)
  | resolvedEv (t : Nat)
  | manualResolvedEv (t : Nat)
deriving DecidableEq, Repr

/-- Modelled from the spec: the central Incident entity. -/
structure Incident where
  id : Nat
  workloadId : Nat
  conditionKind : ConditionKind
  state : IncidentState
  openedAt : Nat
  closedAt : Option Nat
  attempts : Nat
  timeline : List TimelineEvent
deriving DecidableEq, Repr

/-- An incident is active while its state is non-terminal. -/
def Incident.isActive (i : Incident) : Bool := !i.state.isTerminal

/-- Modelled from the spec: the Incident Store as the ordered collection of
incident records (append/update only, never removing records). -/
abbrev IncidentStore := List Incident

/-- The active (non-terminal) incidents recorded for a workload. -/
def activeFor (st : IncidentStore) (w : Nat) : List Incident :=
  st.filter fun i => i.workloadId == w && i.isActive

/-- Modelled from the spec: `openOrUpdate(workloadId, conditionKind)`. A new
record is created only when no non-terminal incident exists for the workload;
otherwise the detection only appends a timeline event to the existing
record. -/
def openOrUpdate (st : IncidentStore) (w : Nat) (k : ConditionKind)
    (now : Nat) : IncidentStore :=
  if (activeFor st w).isEmpty then
    st ++ [⟨st.length, w, k, .opened, now, none, 0, [.detected k now]⟩]
  else
    st.map fun i =>
      if i.workloadId == w && i.isActive then
        { i with timeline := i.timeline ++ [.detected k now] }
      else i

/-- Modelled from the spec: the validated transition table of the incident
state machine (no transition leaves a terminal state, and
Verifying → Opened is disallowed in favour of Verifying → Diagnosing). -/
def transitionAllowed : IncidentState → IncidentState → Bool
  | .opened, .diagnosing => true
  | .diagnosing, .remediating => true
  | .remediating, .verifying => true
  | .remediating, .diagnosing => true
  | .remediating, .escalated => true
  | .verifying, .resolved => true
  | .verifying, .diagnosing => true
  | .verifying, .escalated => true
  | _, _ => false

/-- Timeline events recorded when entering a target state. -/
def transitionEvent (target : IncidentState) (now : Nat) : List TimelineEvent :=
  match target with
  | .escalated => [.escalatedEv now]
  | .resolved => [.resolvedEv now]
  | _ => []

/-- Modelled from the spec: `advance(incidentId, event)` on a single record;
disallowed transitions leave the record unchanged, the Verifying → Diagnosing
loop increments `attempts`, and terminal entry sets `closedAt`. -/
def advanceIncident (i : Incident) (target : IncidentState) (now : Nat) :
    Incident :=
  if transitionAllowed i.state target then
    { i with
        state := target,
        closedAt := if target.isTerminal then some now else i.closedAt,
        attempts :=
          if i.state == .verifying && target == .diagnosing then
            i.attempts + 1
          else i.attempts,
        timeline := i.timeline ++ transitionEvent target now }
  else i

/-- `advance` applied through the store, addressing a record by id. -/
def advanceStore (st : IncidentStore) (incId : Nat) (target : IncidentState)
    (now : Nat) : IncidentStore :=
  st.map fun i => if i.id == incId then advanceIncident i target now else i

/-- Modelled from the spec: the operator's manual force-close override, which
transitions an active incident directly to Resolved and records the override
as its own timeline event. Terminal incidents are immutable. -/
def forceClose (i : Incident) (now : Nat) : Incident :=
  if i.isActive then
    { i with
        state := .resolved,
        closedAt := some now,
        timeline := i.timeline ++ [.manualResolvedEv now] }
  else i

/-- Manual force-close applied through the store, addressing a record by id. -/
def forceCloseStore (st : IncidentStore) (incId : Nat) (now : Nat) :
    IncidentStore :=
  st.map fun i => if i.id == incId then forceClose i now else i

/-- Modelled from the spec: the configured maximum number of remediation
attempts, default 3. -/
def defaultMaxAttempts : Nat := 3

/-- Modelled from the spec: one remediation attempt by the Remediation
Engine on an incident. Terminal incidents are never touched. On success the
incident moves to Verifying; on failure or timeout `attempts` increments and
the incident either escalates (budget exhausted) or loops back to
Diagnosing for the next cycle. -/
def remediateOnce (maxAttempts : Nat) (act : ActionKind) (o : Outcome)
    (now : Nat) (i : Incident) : Incident :=
  if i.state.isTerminal then i
  else
    match o with
    | .success =>
        { i with
            state := .verifying,
            timeline := i.timeline ++
              [.remediationAttempted act now, .remediationResult o now] }
    | _ =>
        if maxAttempts ≤ i.attempts + 1 then
          { i with
              state := .escalated,
              attempts := i.attempts + 1,
              closedAt := some now,
              timeline := i.timeline ++
                [.remediationAttempted act now, .remediationResult o now,
                 .escalatedEv now] }
        else
          { i with
              state := .diagnosing,
              attempts := i.attempts + 1,
              timeline := i.timeline ++
                [.remediationAttempted act now, .remediationResult o now] }

/-- One remediation attempt applied through the store, addressing by id. -/
def remediateStore (st : IncidentStore) (incId maxAttempts : Nat)
    (act : ActionKind) (o : Outcome) (now : Nat) : IncidentStore :=
  st.map fun i => if i.id == incId then remediateOnce maxAttempts act o now i else i

/-- Modelled from the spec: the operations that mutate the Incident Store.
The per-workload lease of the Scheduler serializes all work, so concurrent
cycles are modelled as arbitrary interleavings of these atomic operations. -/
inductive Step : IncidentStore → IncidentStore → Prop
  | detect (st : IncidentStore) (w : Nat) (k : ConditionKind) (now : Nat) :
      Step st (openOrUpdate st w k now)
  | advance (st : IncidentStore) (incId : Nat) (target : IncidentState)
      (now : Nat) : Step st (advanceStore st incId target now)
  | close (st : IncidentStore) (incId now : Nat) :
      Step st (forceCloseStore st incId now)
  | remediation (st : IncidentStore) (incId maxAttempts : Nat)
      (act : ActionKind) (o : Outcome) (now : Nat) :
      Step st (remediateStore st incId maxAttempts act o now)

/-- Stores reachable from the empty store by any sequence of operations. -/
inductive Reachable : IncidentStore → Prop
  | init : Reachable []
  | next {st st' : IncidentStore} : Reachable st → Step st st' → Reachable st'

/-- The core concurrency invariant: at most one non-terminal incident per
workload. -/
def AtMostOneActive (st : IncidentStore) : Prop :=
  ∀ w, (activeFor st w).length ≤ 1

theorem length_filter_map_le {α : Type} (g : α → α) (p : α → Bool)
    (h : ∀ a, p (g a) = true → p a = true) (l : List α) :
    ((l.map g).filter p).length ≤ (l.filter p).length := by
  rw [← List.countP_eq_length_filter, ← List.countP_eq_length_filter,
    List.countP_map]
  exact List.countP_mono_left fun a _ ha => h a ha

theorem atMostOne_map_le (st : IncidentStore) (g : Incident → Incident)
    (hw : ∀ i, (g i).workloadId = i.workloadId)
    (ha : ∀ i, (g i).isActive = true → i.isActive = true)
    (h : AtMostOneActive st) : AtMostOneActive (st.map g) := by
  intro w
  refine le_trans (length_filter_map_le g _ ?_ st) (h w)
  intro i hi
  simp only [Bool.and_eq_true, beq_iff_eq] at hi ⊢
  exact ⟨by rw [← hw i]; exact hi.1, ha i hi.2⟩

theorem advanceIncident_terminal (i : Incident) (target : IncidentState)
    (now : Nat) (h : i.state.isTerminal = true) :
    advanceIncident i target now = i := by
  unfold advanceIncident
  cases hs : i.state <;> rw [hs] at h <;>
    first
    | exact absurd h (by decide)
    | (cases target <;> simp [transitionAllowed])

theorem forceClose_terminal (i : Incident) (now : Nat)
    (h : i.state.isTerminal = true) : forceClose i now = i := by
  simp [forceClose, Incident.isActive, h]

theorem remediateOnce_terminal (m : Nat) (a : ActionKind) (o : Outcome)
    (now : Nat) (i : Incident) (h : i.state.isTerminal = true) :
    remediateOnce m a o now i = i := by
  simp [remediateOnce, h]

theorem active_of_terminal_fixed {g : Incident → Incident}
    (hterm : ∀ i, i.state.isTerminal = true → g i = i) (i : Incident)
    (h : (g i).isActive = true) : i.isActive = true := by
  by_cases ht : i.state.isTerminal = true
  · rw [hterm i ht] at h; exact h
  · simp only [Bool.not_eq_true] at ht
    simp [Incident.isActive, ht]

theorem advanceIncident_workloadId (i : Incident) (target : IncidentState)
    (now : Nat) : (advanceIncident i target now).workloadId = i.workloadId := by
  unfold advanceIncident
  split <;> rfl

theorem forceClose_workloadId (i : Incident) (now : Nat) :
    (forceClose i now).workloadId = i.workloadId := by
  unfold forceClose
  split <;> rfl

theorem remediateOnce_workloadId (m : Nat) (a : ActionKind) (o : Outcome)
    (now : Nat) (i : Incident) :
    (remediateOnce m a o now i).workloadId = i.workloadId := by
  unfold remediateOnce
  split
  · rfl
  · split
    · rfl
    · split <;> rfl

theorem openOrUpdate_preserves_atMostOne (st : IncidentStore) (w : Nat)
    (k : ConditionKind) (now : Nat) (h : AtMostOneActive st) :
    AtMostOneActive (openOrUpdate st w k now) := by
  unfold openOrUpdate
  split
  case isTrue hemp =>
    intro w'
    have hnil : activeFor st w = [] := List.isEmpty_iff.mp hemp
    simp only [activeFor] at hnil ⊢
    rw [List.filter_append, List.length_append]
    by_cases hww : w = w'
    · subst hww
      rw [hnil]
      simp [Incident.isActive, IncidentState.isTerminal]
    · have hsingle : List.filter (fun i => i.workloadId == w' && i.isActive)
          [(⟨st.length, w, k, .opened, now, none, 0, [.detected k now]⟩ : Incident)]
          = [] := by
        simp [hww]
      rw [hsingle]
      simpa [activeFor] using h w'
  case isFalse hemp =>
    refine atMostOne_map_le st _ (fun i => ?_) (fun i hi => ?_) h
    · split <;> rfl
    · revert hi
      split <;> intro hi
      · exact hi
      · exact hi

theorem step_preserves_atMostOne {st st' : IncidentStore} (hs : Step st st')
    (h : AtMostOneActive st) : AtMostOneActive st' := by
  cases hs with
  | detect w k now => exact openOrUpdate_preserves_atMostOne st w k now h
  | advance incId target now =>
    refine atMostOne_map_le st _ (fun i => ?_) ?_ h
    · split
      · exact advanceIncident_workloadId i target now
      · rfl
    · refine active_of_terminal_fixed (fun i ht => ?_)
      split
      · exact advanceIncident_terminal i target now ht
      · rfl
  | close incId now =>
    refine atMostOne_map_le st _ (fun i => ?_) ?_ h
    · split
      · exact forceClose_workloadId i now
      · rfl
    · refine active_of_terminal_fixed (fun i ht => ?_)
      split
      · exact forceClose_terminal i now ht
      · rfl
  | remediation incId maxAttempts act o now =>
    refine atMostOne_map_le st _ (fun i => ?_) ?_ h
    · split
      · exact remediateOnce_workloadId maxAttempts act o now i
      · rfl
    · refine active_of_terminal_fixed (fun i ht => ?_)
      split
      · exact remediateOnce_terminal maxAttempts act o now i ht
      · rfl

/-- C1: in every reachable store, at most one incident per workload is in a
non-terminal state ({Open, Diagnosing, Remediating, Verifying}); concurrent
cycles, modelled as arbitrary interleavings of the serialized operations of
the Lifecycle Manager and Remediation Engine, preserve the invariant. -/
theorem incident_at_most_one_active (st : IncidentStore) (h : Reachable st) :
    AtMostOneActive st := by
  induction h with
  | init => intro w; simp [activeFor]
  | next _ hs ih => exact step_preserves_atMostOne hs ih

theorem incident_at_most_one_active_witness :
    (activeFor (openOrUpdate (openOrUpdate [] 5 ConditionKind.highMemory 0)
      5 ConditionKind.highMemory 1) 5).length ≤ 1 :=
  incident_at_most_one_active _
    (Reachable.next
      (Reachable.next Reachable.init (Step.detect [] 5 ConditionKind.highMemory 0))
      (Step.detect _ 5 ConditionKind.highMemory 1)) 5

theorem remediate_failure_run (maxAttempts : Nat) (act : ActionKind)
    (now : Nat) :
    ∀ (n : Nat) (i : Incident), i.state.isTerminal = false →
      i.attempts + n = maxAttempts → 0 < n →
      ((remediateOnce maxAttempts act Outcome.failure now)^[n] i).state
          = IncidentState.escalated ∧
      ((remediateOnce maxAttempts act Outcome.failure now)^[n] i).attempts
          = maxAttempts ∧
      ∀ j, j < n →
        (((remediateOnce maxAttempts act Outcome.failure now)^[j] i).state).isTerminal
          = false := by
  intro n
  induction n with
  | zero => intro i _ _ h0; exact absurd h0 (lt_irrefl 0)
  | succ n ih =>
    intro i hterm hatt _
    by_cases hn : n = 0
    · subst hn
      have h1 : maxAttempts ≤ i.attempts + 1 := by omega
      rw [Function.iterate_one]
      refine ⟨?_, ?_, ?_⟩
      · simp [remediateOnce, hterm, h1]
      · simp [remediateOnce, hterm, h1]
        omega
      · intro j hj
        have hj0 : j = 0 := by omega
        subst hj0
        simpa using hterm
    · have h1 : ¬ maxAttempts ≤ i.attempts + 1 := by omega
      have hstep : remediateOnce maxAttempts act Outcome.failure now i =
          { i with
              state := IncidentState.diagnosing,
              attempts := i.attempts + 1,
              timeline := i.timeline ++
                [TimelineEvent.remediationAttempted act now,
                 TimelineEvent.remediationResult Outcome.failure now] } := by
        simp [remediateOnce, hterm, h1]
      have hrec := ih (remediateOnce maxAttempts act Outcome.failure now i)
        (by rw [hstep]; rfl) (by rw [hstep]; dsimp only; omega) (by omega)
      rw [Function.iterate_succ_apply]
      refine ⟨hrec.1, hrec.2.1, fun j hj => ?_⟩
      cases j with
      | zero => simpa using hterm
      | succ j =>
        rw [Function.iterate_succ_apply]
        exact hrec.2.2 j (by omega)

/-- C4: an incident whose remediation attempts always fail transitions to
the terminal state Escalated after exactly the configured maximum number of
attempts (default 3), with `attempts` equal to that maximum; it is still
non-terminal before the budget is reached, and every later remediation
cycle leaves the escalated incident untouched. -/
theorem remediation_escalates_after_max_attempts (maxAttempts : Nat)
    (act : ActionKind) (now : Nat) (i : Incident)
    (hmax : 0 < maxAttempts) (hterm : i.state.isTerminal = false)
    (hatt : i.attempts = 0) :
    defaultMaxAttempts = 3 ∧
    ((remediateOnce maxAttempts act Outcome.failure now)^[maxAttempts] i).state
        = IncidentState.escalated ∧
    ((remediateOnce maxAttempts act Outcome.failure now)^[maxAttempts] i).attempts
        = maxAttempts ∧
    (∀ j, j < maxAttempts →
      ((((remediateOnce maxAttempts act Outcome.failure now)^[j] i).state).isTerminal)
        = false) ∧
    ∀ m, (remediateOnce maxAttempts act Outcome.failure now)^[maxAttempts + m] i
        = (remediateOnce maxAttempts act Outcome.failure now)^[maxAttempts] i := by
  have hrun := remediate_failure_run maxAttempts act now maxAttempts i hterm
    (by omega) hmax
  refine ⟨rfl, hrun.1, hrun.2.1, hrun.2.2, fun m => ?_⟩
  rw [Nat.add_comm, Function.iterate_add_apply]
  exact Function.iterate_fixed
    (remediateOnce_terminal _ _ _ _ _ (by rw [hrun.1]; rfl)) m

/-- A freshly opened incident (attempts = 0) for workload 7. -/
def incFresh : Incident :=
  ⟨0, 7, .highMemory, .opened, 0, none, 0, [.detected .highMemory 0]⟩

theorem remediation_escalates_after_max_attempts_witness :
    ((remediateOnce defaultMaxAttempts ActionKind.restartPod Outcome.failure 1)^[defaultMaxAttempts]
        incFresh).state = IncidentState.escalated ∧
    ((remediateOnce defaultMaxAttempts ActionKind.restartPod Outcome.failure 1)^[defaultMaxAttempts]
        incFresh).attempts = defaultMaxAttempts :=
  ⟨(remediation_escalates_after_max_attempts defaultMaxAttempts
      ActionKind.restartPod 1 incFresh (by decide) (by decide) (by decide)).2.1,
   (remediation_escalates_after_max_attempts defaultMaxAttempts
      ActionKind.restartPod 1 incFresh (by decide) (by decide) (by decide)).2.2.1⟩

theorem openOrUpdate_fresh (st : IncidentStore) (w : Nat) (k : ConditionKind)
    (now : Nat) (h : activeFor st w = []) :
    openOrUpdate st w k now =
      st ++ [⟨st.length, w, k, .opened, now, none, 0, [.detected k now]⟩] := by
  unfold openOrUpdate
  rw [if_pos (List.isEmpty_iff.mpr h)]

theorem openOrUpdate_existing (st : IncidentStore) (w : Nat)
    (k : ConditionKind) (now : Nat) (h : ¬ (activeFor st w).isEmpty = true) :
    openOrUpdate st w k now = st.map fun i =>
      if i.workloadId == w && i.isActive then
        { i with timeline := i.timeline ++ [.detected k now] }
      else i := by
  unfold openOrUpdate
  rw [if_neg h]

/-- C5: with no active incident for a workload, two successive
`openOrUpdate` calls for it grow the store by a single record that carries
both detection events on its timeline; the second call appends a timeline
event to the existing open record instead of creating a second record. -/
theorem openOrUpdate_idempotent (st : IncidentStore) (w : Nat)
    (k : ConditionKind) (t1 t2 : Nat) (h : activeFor st w = []) :
    (openOrUpdate st w k t1).length = st.length + 1 ∧
    (openOrUpdate (openOrUpdate st w k t1) w k t2).length = st.length + 1 ∧
    activeFor (openOrUpdate (openOrUpdate st w k t1) w k t2) w =
      [⟨st.length, w, k, IncidentState.opened, t1, none, 0,
        [TimelineEvent.detected k t1, TimelineEvent.detected k t2]⟩] := by
  have hpred : ∀ i ∈ st, (i.workloadId == w && i.isActive) = false := by
    intro i hi
    have hmem := List.filter_eq_nil_iff.mp h i hi
    exact Bool.eq_false_iff.mpr hmem
  have hstep1 := openOrUpdate_fresh st w k t1 h
  have hact1 : activeFor (openOrUpdate st w k t1) w =
      [⟨st.length, w, k, .opened, t1, none, 0, [.detected k t1]⟩] := by
    rw [hstep1]
    unfold activeFor at h ⊢
    rw [List.filter_append, h, List.nil_append]
    simp [Incident.isActive, IncidentState.isTerminal]
  have hne : ¬ (activeFor (openOrUpdate st w k t1) w).isEmpty = true := by
    rw [hact1]
    simp
  have hmap : openOrUpdate (openOrUpdate st w k t1) w k t2 =
      st ++ [⟨st.length, w, k, .opened, t1, none, 0,
        [.detected k t1, .detected k t2]⟩] := by
    rw [openOrUpdate_existing _ w k t2 hne, hstep1, List.map_append]
    congr 1
    · conv_rhs => rw [← List.map_id st]
      refine List.map_congr_left fun i hi => ?_
      rw [hpred i hi]
      simp
    · simp [Incident.isActive, IncidentState.isTerminal]
  refine ⟨?_, ?_, ?_⟩
  · rw [hstep1]
    simp
  · rw [hmap]
    simp
  · rw [hmap]
    unfold activeFor at h ⊢
    rw [List.filter_append, h, List.nil_append]
    simp [Incident.isActive, IncidentState.isTerminal]

theorem openOrUpdate_idempotent_witness :
    (openOrUpdate [] 4 ConditionKind.crashLoop 10).length = 1 ∧
    (openOrUpdate (openOrUpdate [] 4 ConditionKind.crashLoop 10)
        4 ConditionKind.crashLoop 20).length = 1 ∧
    activeFor (openOrUpdate (openOrUpdate [] 4 ConditionKind.crashLoop 10)
        4 ConditionKind.crashLoop 20) 4 =
      [⟨0, 4, ConditionKind.crashLoop, IncidentState.opened, 10, none, 0,
        [TimelineEvent.detected ConditionKind.crashLoop 10,
         TimelineEvent.detected ConditionKind.crashLoop 20]⟩] :=
  openOrUpdate_idempotent [] 4 ConditionKind.crashLoop 10 20 (by decide)

/-! ## Remediation Engine action table -/

/-- Modelled from the spec: the context the Remediation Engine consults when
choosing an action (deployment history, replica counts, scale bound). -/
structure RemediationContext where
  hasLastKnownGood : Bool
  currentReplicas : Nat
  maxReplicas : Nat
deriving DecidableEq, Repr

/-- Modelled from the spec: the fixed condition → action table of
`remediate(incident)`; the primary action chosen for each condition kind. -/
def selectAction (ctx : RemediationContext) : ConditionKind → ActionKind
  | .crashLoop => if ctx.hasLastKnownGood then .rollback else .restartPod
  | .highMemory => .restartPod
  | .highCpu => .scaleUp
  | .replicaShortfall => .restartPod
  | .serviceUnreachable => .refreshEndpoints

/-- Modelled from the spec: the replica count targeted by ScaleUp — one more
replica, bounded by the configured maximum. -/
def scaleUpTarget (ctx : RemediationContext) : Nat :=
  min (ctx.currentReplicas + 1) ctx.maxReplicas

/-- Modelled from the spec: the follow-up action taken when the primary one
does not clear the condition: a fresh rollout for a replica shortfall whose
restart does not converge, a restart when the service is still
unreachable after the endpoint refresh. -/
def fallbackAction : ConditionKind → Option ActionKind
  | .replicaShortfall => some .freshRollout
  | .serviceUnreachable => some .restartPod
  | _ => none

/-- C6: the Remediation Engine selects actions by the fixed table: CrashLoop
maps to Rollback when a last known-good version exists and otherwise to
RestartPod; HighMemory to RestartPod; HighCpu to ScaleUp by one replica
bounded by the configured maximum; ReplicaShortfall to RestartPod with a
fresh rollout as fallback; ServiceUnreachable to RefreshEndpoints with
RestartPod as fallback. -/
theorem remediation_action_table (ctx : RemediationContext) :
    (selectAction ctx .crashLoop =
      if ctx.hasLastKnownGood then ActionKind.rollback else ActionKind.restartPod) ∧
    selectAction ctx .highMemory = ActionKind.restartPod ∧
    selectAction ctx .highCpu = ActionKind.scaleUp ∧
    scaleUpTarget ctx ≤ ctx.currentReplicas + 1 ∧
    scaleUpTarget ctx ≤ ctx.maxReplicas ∧
    selectAction ctx .replicaShortfall = ActionKind.restartPod ∧
    fallbackAction .replicaShortfall = some ActionKind.freshRollout ∧
    selectAction ctx .serviceUnreachable = ActionKind.refreshEndpoints ∧
    fallbackAction .serviceUnreachable = some ActionKind.restartPod :=
  ⟨rfl, rfl, rfl, Nat.min_le_left _ _, Nat.min_le_right _ _, rfl, rfl, rfl, rfl⟩

/-- C7: a manual force-close from the operator moves an active incident
directly to Resolved and records a `manualResolvedEv` timeline event, which
differs from the `resolvedEv` event that an automatic Verifying → Resolved
transition records, so the two resolutions are distinguishable in the stored
timeline. -/
theorem manual_force_close_resolves (i : Incident) (now : Nat)
    (h : i.isActive = true) :
    (forceClose i now).state = IncidentState.resolved ∧
    (forceClose i now).timeline
      = i.timeline ++ [TimelineEvent.manualResolvedEv now] ∧
    (∀ t u, TimelineEvent.manualResolvedEv t ≠ TimelineEvent.resolvedEv u) ∧
    ∀ (j : Incident) (u : Nat), j.state = IncidentState.verifying →
      (advanceIncident j IncidentState.resolved u).timeline
        = j.timeline ++ [TimelineEvent.resolvedEv u] := by
  refine ⟨?_, ?_, ?_, ?_⟩
  · simp [forceClose, h]
  · simp [forceClose, h]
  · intro t u hc
    exact TimelineEvent.noConfusion hc
  · intro j u hj
    simp [advanceIncident, hj, transitionAllowed, transitionEvent]

theorem manual_force_close_resolves_witness :
    (forceClose incFresh 9).state = IncidentState.resolved ∧
    (forceClose incFresh 9).timeline
      = incFresh.timeline ++ [TimelineEvent.manualResolvedEv 9] :=
  ⟨(manual_force_close_resolves incFresh 9 (by decide)).1,
   (manual_force_close_resolves incFresh 9 (by decide)).2.1⟩

/-! ## Scheduler -/

/-- Modelled from the spec: Scheduler configuration; fixed-interval cycles,
default 60 seconds. -/
structure SchedulerConfig where
  intervalSeconds : Nat
deriving DecidableEq, Repr

/-- Modelled from the spec: the default Scheduler configuration (60s). -/
def defaultSchedulerConfig : SchedulerConfig := ⟨60⟩

/-- Modelled from the spec: scheduler state — the workloads whose unit of
work from a prior cycle still holds its per-workload lease. -/
structure SchedulerState where
  inFlight : List Nat
deriving DecidableEq, Repr

/-- Modelled from the spec: one Scheduler tick. Every known workload with no
in-flight unit is dispatched (acquiring its lease); a workload whose prior
unit has not finished is skipped for this tick. -/
def tick (s : SchedulerState) (workloads : List Nat) :
    SchedulerState × List Nat :=
  let dispatched := workloads.filter fun w => !s.inFlight.contains w
  (⟨s.inFlight ++ dispatched⟩, dispatched)

/-- C8: the Scheduler fires at a fixed interval defaulting to 60 seconds,
and a workload whose prior unit of work has not finished when the next tick
fires is skipped for that tick, so units for one workload never pile up. -/
theorem scheduler_skips_in_flight (s : SchedulerState) (workloads : List Nat)
    (w : Nat) (h : w ∈ s.inFlight) :
    defaultSchedulerConfig.intervalSeconds = 60 ∧ w ∉ (tick s workloads).2 := by
  refine ⟨rfl, fun hmem => ?_⟩
  have hmem2 : w ∈ workloads.filter fun v => !s.inFlight.contains v := hmem
  have h2 : (!s.inFlight.contains w) = true := (List.mem_filter.mp hmem2).2
  rw [Bool.not_eq_true'] at h2
  exact absurd h (by simpa using h2)

theorem scheduler_skips_in_flight_witness :
    (1 : Nat) ∈ (SchedulerState.mk [1]).inFlight ∧
    (1 : Nat) ∉ (tick (SchedulerState.mk [1]) [1, 2]).2 :=
  ⟨by decide, (scheduler_skips_in_flight (SchedulerState.mk [1]) [1, 2] 1
    (by decide)).2⟩

/-! ## Dashboard page (frontend/src, Dashboard component) -/

/-- A JavaScript value as the dashboard stats object may carry it: null or
an absent field, a number, or a string. -/
inductive JSVal
  | vNull
  | vNum (n : Int)
  | vStr (s : String)
deriving DecidableEq, Repr

/-- JavaScript truthiness for the modelled values: null/undefined, the
number 0 and the empty string are falsy. -/
def JSVal.truthy : JSVal → Bool
  | .vNull => false
  | .vNum n => n != 0
  | .vStr s => s != ""

/-- JavaScript logical-or `a || b`: `a` when truthy, otherwise `b`. -/
def jsOr (a b : JSVal) : JSVal := if a.truthy then a else b

/-- The stats object the Dashboard page reads; a missing field or a null
`stats` object makes the optional-chained access `vNull`. -/
structure DashboardStats where
  totalApplications : JSVal
  activeDeployments : JSVal
  openIncidents : JSVal
  systemUptime : JSVal
deriving DecidableEq, Repr

/-- From the Dashboard component: the Total Applications metric value,
`stats?.totalApplications || 12`. -/
def renderedTotalApplications (st : DashboardStats) : JSVal :=
  jsOr st.totalApplications (.vNum 12)

/-- From the Dashboard component: the Active Deployments metric value,
`stats?.activeDeployments || 24`. -/
def renderedActiveDeployments (st : DashboardStats) : JSVal :=
  jsOr st.activeDeployments (.vNum 24)

/-- From the Dashboard component: the Open Incidents metric value,
`stats?.openIncidents || 3`. -/
def renderedOpenIncidents (st : DashboardStats) : JSVal :=
  jsOr st.openIncidents (.vNum 3)

/-- From the Dashboard component: the System Uptime metric value,
`stats?.systemUptime || "99.9"`. -/
def renderedSystemUptime (st : DashboardStats) : JSVal :=
  jsOr st.systemUptime (.vStr "99.9")

theorem renderedOpenIncidents_ne_zero (st : DashboardStats) :
    renderedOpenIncidents st ≠ JSVal.vNum 0 := by
  unfold renderedOpenIncidents jsOr
  split
  case isTrue ht =>
    intro hc
    rw [hc] at ht
    exact absurd ht (by decide)
  case isFalse =>
    intro hc
    exact absurd hc (by decide)

/-- C9: every dashboard metric value falls back through JavaScript
logical-or to a hardcoded default, so Open Incidents renders as 3 whenever
the field is 0, null or absent — and likewise Total Applications as 12,
Active Deployments as 24 and System Uptime as the string "99.9" — and a
true count of zero open incidents is never displayed as 0. -/
theorem dashboard_zero_renders_default (st : DashboardStats)
    (h : st.openIncidents = JSVal.vNum 0 ∨ st.openIncidents = JSVal.vNull) :
    renderedOpenIncidents st = JSVal.vNum 3 ∧
    (st.totalApplications = JSVal.vNum 0 ∨ st.totalApplications = JSVal.vNull →
      renderedTotalApplications st = JSVal.vNum 12) ∧
    (st.activeDeployments = JSVal.vNum 0 ∨ st.activeDeployments = JSVal.vNull →
      renderedActiveDeployments st = JSVal.vNum 24) ∧
    (st.systemUptime = JSVal.vNum 0 ∨ st.systemUptime = JSVal.vNull →
      renderedSystemUptime st = JSVal.vStr "99.9") ∧
    ∀ st', renderedOpenIncidents st' ≠ JSVal.vNum 0 := by
  refine ⟨?_, fun ha => ?_, fun hd => ?_, fun hu => ?_, renderedOpenIncidents_ne_zero⟩
  · rcases h with h | h <;> simp [renderedOpenIncidents, jsOr, h, JSVal.truthy]
  · rcases ha with ha | ha <;>
      simp [renderedTotalApplications, jsOr, ha, JSVal.truthy]
  · rcases hd with hd | hd <;>
      simp [renderedActiveDeployments, jsOr, hd, JSVal.truthy]
  · rcases hu with hu | hu <;>
      simp [renderedSystemUptime, jsOr, hu, JSVal.truthy]

/-- A stats response reporting a true count of zero everywhere. -/
def zeroStats : DashboardStats :=
  ⟨JSVal.vNum 0, JSVal.vNum 0, JSVal.vNum 0, JSVal.vNum 0⟩

theorem dashboard_zero_renders_default_witness :
    renderedOpenIncidents zeroStats = JSVal.vNum 3 ∧
    renderedTotalApplications zeroStats = JSVal.vNum 12 ∧
    renderedActiveDeployments zeroStats = JSVal.vNum 24 ∧
    renderedSystemUptime zeroStats = JSVal.vStr "99.9" :=
  ⟨(dashboard_zero_renders_default zeroStats (Or.inl rfl)).1,
   (dashboard_zero_renders_default zeroStats (Or.inl rfl)).2.1 (Or.inl rfl),
   (dashboard_zero_renders_default zeroStats (Or.inl rfl)).2.2.1 (Or.inl rfl),
   (dashboard_zero_renders_default zeroStats (Or.inl rfl)).2.2.2.1 (Or.inl rfl)⟩

/-! ## Incidents page (frontend/src, Incidents component) -/

/-- An incident row as the Incidents page receives it; an absent field is
`none`. -/
structure UIIncident where
  severity : Option String
  status : Option String
deriving DecidableEq, Repr

/-- From the Incidents component: `incidentStats.total = incidents.length`. -/
def uiTotal (l : List UIIncident) : Nat := l.length

/-- From the Incidents component:
`incidents.filter(i => i.severity === 'critical').length`. -/
def uiCritical (l : List UIIncident) : Nat :=
  (l.filter fun i => i.severity == some "critical").length

/-- From the Incidents component:
`incidents.filter(i => i.severity === 'high').length`. -/
def uiHigh (l : List UIIncident) : Nat :=
  (l.filter fun i => i.severity == some "high").length

/-- From the Incidents component:
`incidents.filter(i => i.status !== 'resolved').length`. -/
def uiOpen (l : List UIIncident) : Nat :=
  (l.filter fun i => i.status != some "resolved").length

/-- C10: the Open counter counts exactly the incidents whose status is not
the exact string "resolved" — escalated or unknown statuses included, as the
partition with the resolved rows shows — while critical and high count by
exact severity string; each counter is at most the total. -/
theorem incidents_page_counters (l : List UIIncident) :
    uiOpen l + (l.filter fun i => i.status == some "resolved").length
      = uiTotal l ∧
    (∀ i ∈ l, i.status ≠ some "resolved" →
      i ∈ l.filter fun j => j.status != some "resolved") ∧
    uiOpen l ≤ uiTotal l ∧
    uiCritical l ≤ uiTotal l ∧
    uiHigh l ≤ uiTotal l := by
  refine ⟨?_, ?_, List.length_filter_le _ _, List.length_filter_le _ _,
    List.length_filter_le _ _⟩
  · unfold uiOpen uiTotal
    induction l with
    | nil => rfl
    | cons a t ih =>
      by_cases ha : a.status = some "resolved"
      · simp [List.filter_cons, ha]
        omega
      · simp [List.filter_cons, ha]
        omega
  · intro i hi hs
    exact List.mem_filter.mpr ⟨hi, by simpa using hs⟩

/-- A single escalated row, as the Incidents page would receive it. -/
def uiSample : List UIIncident := [⟨some "critical", some "escalated"⟩]

theorem incidents_page_counters_witness :
    (⟨some "critical", some "escalated"⟩ : UIIncident) ∈
      uiSample.filter (fun j => j.status != some "resolved") ∧
    uiOpen uiSample + (uiSample.filter fun i => i.status == some "resolved").length
      = uiTotal uiSample :=
  ⟨(incidents_page_counters uiSample).2.1 _ (by decide) (by decide),
   (incidents_page_counters uiSample).1⟩

end CapX
